import Mathlib

/-!
A shallow embedding of the core of the `web-performance-with-gemini`
benchmarking service, together with theorems settling the frozen claims
about it.

The embedded code:
* `server/src/metrics.js` — the in-process metrics engine (`percentile`,
  `calculateStats`).  Durations and timestamps are modelled as natural
  numbers of milliseconds, which is what the only producers
  (`metricsMiddleware`, `recordDbQuery`) record: differences of
  `Date.now()` values.  JavaScript's `Math.round` is `round` on ℚ
  (both send x to ⌊x + 1/2⌋), `Math.ceil` is `Int.ceil`, and
  `arr.sort((a,b) => a-b)` is an ascending sort.
* `server/src/redis.js` and the per-route capability constants — the
  environment-derived mode resolution.
* the `POST /checkout` route (baseline and optimized branches) over an
  explicit relational database state; the optimized branch's
  BEGIN/COMMIT/ROLLBACK discipline is modelled by applying writes to a
  transaction-local state that is installed only on commit.
* the `GET /recommendations/:userId` route (cache-enabled and baseline
  branches) over an explicit cache state with per-entry expiry.
-/

namespace WebPerf

/-- A recorded request sample (`recordRequest` in `metrics.js`):
method, path, duration in ms, `Date.now()` timestamp, HTTP status. -/
structure RequestSample where
  method : String
  path : String
  duration : ℕ
  timestamp : ℕ
  statusCode : ℕ
  deriving DecidableEq, Repr

instance : Inhabited RequestSample := ⟨⟨"", "", 0, 0, 0⟩⟩

/-- A recorded database-query sample (`recordDbQuery` in `metrics.js`):
query text truncated to 100 characters, duration in ms, timestamp. -/
structure QuerySample where
  query : String
  duration : ℕ
  timestamp : ℕ
  deriving DecidableEq, Repr

/-- The mutable metrics state of `metrics.js`: request and db-query
series plus the two monotonic cache counters. -/
structure Metrics where
  requests : List RequestSample
  dbQueries : List QuerySample
  cacheHits : ℕ
  cacheMisses : ℕ
  deriving DecidableEq, Repr

/-- Kernel-computable floor of a rational: `q.num / q.den` with
Euclidean integer division (the denominator is positive, so this is the
mathematical floor). -/
def ratFloor (q : ℚ) : ℤ := q.num / (q.den : ℤ)

/-- JavaScript's `Math.ceil` on an exact rational. -/
def jsCeil (q : ℚ) : ℤ := -(ratFloor (-q))

/-- JavaScript's `Math.round` on an exact rational: ⌊x + 1/2⌋
(halves round up, also for negatives, exactly as `Math.round`). -/
def jsRound (q : ℚ) : ℤ := ratFloor (q + 1/2)

/-- The 2-decimal rounding `Math.round(x * 100) / 100` applied to every
numeric field of the stats snapshot. -/
def round2 (x : ℚ) : ℚ := (jsRound (x * 100) : ℤ) / 100

/-- The `percentile(arr, p)` function from `metrics.js`: on the ascending-sorted array,
index `Math.ceil(p * arr.length) - 1` clamped above by `arr.length - 1`
(for `p ∈ (0,1]` and a non-empty array the index is non-negative, so the
`Int.toNat` conversion is exact); `0` on an empty array. -/
def percentile (arr : List ℕ) (p : ℚ) : ℕ :=
  if arr.length = 0 then 0
  else arr.getD (min (jsCeil (p * (arr.length : ℚ)) - 1) ((arr.length : ℤ) - 1)).toNat 0

/-- The elapsed seconds between first and last request sample, as read by
`calculateStats` (`(requests[len-1].timestamp - requests[0].timestamp) / 1000`). -/
def elapsedSec (m : Metrics) : ℚ :=
  (((m.requests.getLastI.timestamp : ℤ) - (m.requests.headI.timestamp : ℤ) : ℤ) : ℚ) / 1000

/-- The snapshot returned by `calculateStats`.  The last field is named
`cacheHitRatio` in the source; the spec's field name (§4.2,
`cacheHitRatioPercent`) is used here. -/
structure Stats where
  requestCount : ℕ
  errorCount : ℕ
  avgLatency : ℚ
  p95Latency : ℚ
  throughput : ℚ
  avgDbTime : ℚ
  cacheHitRatioPercent : ℚ
  deriving DecidableEq, Repr

/-- The `calculateStats()` function from `metrics.js`: all-zero snapshot on an empty
request series; otherwise average and nearest-rank p95 of the sorted
durations, average db time, hit ratio over the cache counters, and
throughput `length / timeSpan` guarded by `length >= 2` and
`timeSpan > 0`; every field rounded to 2 decimals. -/
def calculateStats (m : Metrics) : Stats :=
  if m.requests.length = 0 then
    { requestCount := 0, errorCount := 0, avgLatency := 0, p95Latency := 0
      throughput := 0, avgDbTime := 0, cacheHitRatioPercent := 0 }
  else
    let durations : List ℕ := List.insertionSort (· ≤ ·) (m.requests.map (·.duration))
    let avgLatency : ℚ := ((durations.sum : ℕ) : ℚ) / ((durations.length : ℕ) : ℚ)
    let p95Latency : ℚ := (percentile durations (95/100) : ℚ)
    let dbDurations : List ℕ := m.dbQueries.map (·.duration)
    let avgDbTime : ℚ :=
      if 0 < dbDurations.length then ((dbDurations.sum : ℕ) : ℚ) / ((dbDurations.length : ℕ) : ℚ)
      else 0
    let totalCacheOps := m.cacheHits + m.cacheMisses
    let hitRatioPercent : ℚ :=
      if 0 < totalCacheOps then ((m.cacheHits : ℚ) / (totalCacheOps : ℚ)) * 100 else 0
    let throughput : ℚ :=
      if 2 ≤ m.requests.length then
        (if 0 < elapsedSec m then (m.requests.length : ℚ) / elapsedSec m else 0)
      else 0
    { requestCount := m.requests.length
      errorCount := (m.requests.filter (fun r => decide (400 ≤ r.statusCode))).length
      avgLatency := round2 avgLatency
      p95Latency := round2 p95Latency
      throughput := round2 throughput
      avgDbTime := round2 avgDbTime
      cacheHitRatioPercent := round2 hitRatioPercent }

/-- The `k`-th smallest element of a list of naturals (0-indexed):
position `k` of the ascending sort. -/
def kthSmallest (l : List ℕ) (k : ℕ) : ℕ :=
  (List.insertionSort (· ≤ ·) l).getD k 0

/-! Mode selector

Every capability constant in the source follows one pattern
(`redis.js:7`, `routes/products.js:7`, `routes/dashboard.js:6`, and the
copy in the recommendations route):
`process.env.<OVERRIDE> === '1' || process.env.APP_VERSION === 'optimized'`.
An unset environment variable is `none`; a set one is `some value`. -/

/-- The capability resolution expression shared by `ENABLE_REDIS_CACHE`,
`ENABLE_OPT_SEARCH` and `ENABLE_BATCH_DASHBOARD`. -/
def capabilityEnabled (override : Option String) (appVersion : Option String) : Bool :=
  override == some "1" || appVersion == some "optimized"

/-! Relational state and the checkout route (`routes/checkout.js`) -/

/-- A row of the `products` table (id, price). -/
structure Product where
  id : ℕ
  price : ℚ
  deriving DecidableEq, Repr

/-- A row of the `orders` table. -/
structure Order where
  id : ℕ
  userId : ℕ
  totalAmount : ℚ
  status : String
  deriving DecidableEq, Repr

/-- A row of the `order_items` table. -/
structure OrderItem where
  orderId : ℕ
  productId : ℕ
  quantity : ℕ
  price : ℚ
  deriving DecidableEq, Repr

/-- The database state visible to the checkout route.  `nextOrderId`
models the `orders` SERIAL sequence used by `RETURNING id`. -/
structure DB where
  products : List Product
  orders : List Order
  orderItems : List OrderItem
  nextOrderId : ℕ
  deriving DecidableEq, Repr

/-- One element of the request body's `items` array. -/
structure Item where
  productId : ℕ
  quantity : ℕ
  deriving DecidableEq, Repr

/-- The HTTP outcome of a checkout call: status plus the success body's
`orderId` and `total` when present. -/
structure CheckoutResponse where
  status : ℕ
  orderId : Option ℕ
  total : Option ℚ
  deriving DecidableEq, Repr

/-- The lookup `SELECT ... FROM products WHERE id = $1` (first matching row). -/
def findProduct (db : DB) (pid : ℕ) : Option Product :=
  db.products.find? (fun p => p.id == pid)

/-- The baseline checkout's first loop: per-item price lookup
accumulating `total`; `none` when some item's product does not exist
(the route then returns 400 before any insert). -/
def naiveTotal (db : DB) : List Item → ℚ → Option ℚ
  | [], acc => some acc
  | it :: rest, acc =>
    match findProduct db it.productId with
    | none => none
    | some p => naiveTotal db rest (acc + p.price * (it.quantity : ℚ))

/-- The baseline checkout's second loop: for each item, re-read the
price and insert an `order_items` row.  A missing product here makes the
JavaScript (`productResult.rows[0].price`) throw, which the route maps
to a 500 — with the rows already inserted left in place (`false` flags
that abort). -/
def naiveInsertItems (orderId : ℕ) : DB → List Item → DB × Bool
  | db, [] => (db, true)
  | db, it :: rest =>
    match findProduct db it.productId with
    | none => (db, false)
    | some p =>
      naiveInsertItems orderId
        { db with orderItems :=
            db.orderItems ++ [⟨orderId, it.productId, it.quantity, p.price⟩] }
        rest

/-- The baseline branch of `POST /checkout`: body validation, the
price/total loop (400 on a missing product, nothing written), then the
order insert followed by per-item inserts directly against the pool —
no transaction, so a failure in the item loop leaves prior writes in
place. -/
def naiveCheckout (db : DB) (userId : ℕ) (items : List Item) : CheckoutResponse × DB :=
  if userId = 0 ∨ items.isEmpty then (⟨400, none, none⟩, db)
  else
    match naiveTotal db items 0 with
    | none => (⟨400, none, none⟩, db)
    | some total =>
      let orderId := db.nextOrderId
      let db1 : DB :=
        { db with
          orders := db.orders ++ [⟨orderId, userId, total, "pending"⟩]
          nextOrderId := orderId + 1 }
      match naiveInsertItems orderId db1 items with
      | (db2, true) => (⟨200, some orderId, some total⟩, db2)
      | (db2, false) => (⟨500, none, none⟩, db2)

/-! The Redis-backed recommendations cache (`routes/recommendations.js`)

The cache stores, per key, the JSON-serialized response body together
with the `setEx` expiry; `JSON.parse ∘ JSON.stringify` is the identity
on the values the route stores, so entries hold the response value
itself.  Expiry is enforced by the store at read time (Redis returns
nothing for an expired key). -/

/-- A row of the recommendations query result (product columns plus the
two aggregates). -/
structure RecRow where
  id : ℕ
  name : String
  price : ℚ
  categoryId : ℕ
  relevanceScore : ℚ
  popularity : ℕ
  deriving DecidableEq, Repr

/-- One element of the route's `recommendations` array: the row spread
plus the derived `score = relevance_score + popularity * 0.1`. -/
structure Recommendation where
  row : RecRow
  score : ℚ
  deriving DecidableEq, Repr

/-- A recommendations response body.  `cached` is `some false` when the
body carries the optimized branch's `cached: false` field and `none`
when the field is absent (baseline branch). -/
structure RecResponse where
  recommendations : List Recommendation
  generatedAt : ℕ
  cached : Option Bool
  deriving DecidableEq, Repr

/-- A cache entry: key, stored response, absolute expiry time. -/
structure CacheEntry where
  key : String
  value : RecResponse
  expiresAt : ℕ
  deriving DecidableEq, Repr

/-- The Redis keyspace relevant to the service. -/
abbrev Cache : Type := List CacheEntry

/-- Redis `get(key)` at time `now`: the unexpired entry's value, if any. -/
def cacheGet (c : Cache) (k : String) (now : ℕ) : Option RecResponse :=
  match c.find? (fun e => e.key == k) with
  | some e => if now < e.expiresAt then some e.value else none
  | none => none

/-- Redis `setEx(key, ttl, value)` at time `now`. -/
def cacheSetEx (c : Cache) (k : String) (ttl : ℕ) (now : ℕ) (v : RecResponse) : Cache :=
  ⟨k, v, now + ttl⟩ :: c.filter (fun e => !(e.key == k))

/-- Redis `del(key)`. -/
def cacheDel (c : Cache) (k : String) : Cache :=
  c.filter (fun e => !(e.key == k))

/-- The cache key `recommendations:${userId}` used by both routes. -/
def recKey (userId : ℕ) : String := "recommendations:" ++ toString userId

/-- The row map `result.rows.map(product => ({...product, score: parseFloat(relevance_score)
+ parseFloat(popularity) * 0.1}))`, the map both recommendation branches
apply to the query rows. -/
def buildRecs (rows : List RecRow) : List Recommendation :=
  rows.map (fun r => ⟨r, r.relevanceScore + (r.popularity : ℚ) * (1/10)⟩)

/-- The body built by the cache-enabled branch on a miss:
`{recommendations, generatedAt, cached: false}`. -/
def optimizedMissResponse (rows : List RecRow) (now : ℕ) : RecResponse :=
  ⟨buildRecs rows, now, some false⟩

/-- The body built by the baseline branch: `{recommendations, generatedAt}`
(no `cached` field). -/
def baselineResponse (rows : List RecRow) (now : ℕ) : RecResponse :=
  ⟨buildRecs rows, now, none⟩

/-- The outcome of one `GET /recommendations/:userId` call: response
body, resulting cache state, and the metrics hit/miss counters. -/
structure RecOutcome where
  response : RecResponse
  cache : Cache
  hits : ℕ
  misses : ℕ
  deriving DecidableEq, Repr

/-- The cache-enabled branch of `GET /recommendations/:userId`.
`isRedisAvailable()` is consulted once before the `get` (`availGet`) and
once before the `setEx` (`availSet`), exactly as in the source; `rows`
stands for the result of the underlying recommendations query at `now`.
On a hit the stored body is returned unchanged and the hit counter
incremented; on a miss the miss counter is incremented, the body is
computed, stored with a 300-second TTL when the backend is reachable,
and returned; with the backend unreachable at `get` time no cache
operation and no hit/miss recording happens. -/
def recommendationsOptimized (c : Cache) (availGet availSet : Bool) (userId : ℕ)
    (rows : List RecRow) (now : ℕ) (hits misses : ℕ) : RecOutcome :=
  if availGet then
    match cacheGet c (recKey userId) now with
    | some v => ⟨v, c, hits + 1, misses⟩
    | none =>
      let resp := optimizedMissResponse rows now
      let c1 := if availSet then cacheSetEx c (recKey userId) 300 now resp else c
      ⟨resp, c1, hits, misses + 1⟩
  else
    let resp := optimizedMissResponse rows now
    let c1 := if availSet then cacheSetEx c (recKey userId) 300 now resp else c
    ⟨resp, c1, hits, misses⟩

/-- The baseline branch of `GET /recommendations/:userId`: always
recompute, never touch the cache or the hit/miss counters. -/
def recommendationsBaseline (c : Cache) (rows : List RecRow) (now : ℕ)
    (hits misses : ℕ) : RecOutcome :=
  ⟨baselineResponse rows now, c, hits, misses⟩

/-! The optimized checkout branch

`BEGIN`/`COMMIT`/`ROLLBACK` are modelled by building the written rows
against a transaction-local copy of the database that replaces the real
state only at the commit point; every `catch` path returns the original
state.  The two external failure modes the claims quantify over — the
order `INSERT` failing and the batch item `INSERT` failing — are
injected as booleans; the existence-check failure is determined by the
database contents.  `writes` records each `INSERT` statement the route
sends, in order, including ones that fail (but not ones never reached). -/

/-- The outcome of one optimized `POST /checkout` call. -/
structure OptCheckoutOutcome where
  response : CheckoutResponse
  db : DB
  cache : Cache
  writes : List String
  deriving DecidableEq, Repr

/-- The optimized branch of `POST /checkout`: body validation (400),
`BEGIN`, one batched `SELECT id, price FROM products WHERE id IN (...)`,
existence validation over the resulting product map (`throw` → `catch`
→ `ROLLBACK` → 500), client-side total, order insert, one batched
`order_items` insert, `COMMIT`, then cache invalidation for the user's
recommendations key when the cache backend is reachable. -/
def optimizedCheckout (db : DB) (c : Cache) (userId : ℕ) (items : List Item)
    (orderInsertFails itemInsertFails redisAvailable : Bool) : OptCheckoutOutcome :=
  if userId = 0 ∨ items.isEmpty then ⟨⟨400, none, none⟩, db, c, []⟩
  else if items.any (fun it => (findProduct db it.productId).isNone) then
    ⟨⟨500, none, none⟩, db, c, []⟩
  else
    let total : ℚ :=
      items.foldl
        (fun sum it =>
          sum + (((findProduct db it.productId).map (·.price)).getD 0) * (it.quantity : ℚ))
        0
    if orderInsertFails then ⟨⟨500, none, none⟩, db, c, ["INSERT orders"]⟩
    else
      let orderId := db.nextOrderId
      let txn1 : DB :=
        { db with
          orders := db.orders ++ [⟨orderId, userId, total, "pending"⟩]
          nextOrderId := orderId + 1 }
      if itemInsertFails then
        ⟨⟨500, none, none⟩, db, c, ["INSERT orders", "INSERT order_items"]⟩
      else
        let txn2 : DB :=
          { txn1 with
            orderItems := txn1.orderItems ++
              items.map (fun it =>
                ⟨orderId, it.productId, it.quantity,
                 ((findProduct db it.productId).map (·.price)).getD 0⟩) }
        let c1 := if redisAvailable then cacheDel c (recKey userId) else c
        ⟨⟨200, some orderId, some total⟩, txn2, c1, ["INSERT orders", "INSERT order_items"]⟩

/-! Concrete states used by counterexamples and witnesses -/

/-- A request series of two samples one second apart. -/
def mTwo : Metrics :=
  { requests := [⟨"GET", "/", 5, 0, 200⟩, ⟨"GET", "/", 5, 1000, 200⟩]
    dbQueries := [], cacheHits := 0, cacheMisses := 0 }

/-- Three recorded hits and seven recorded misses with no request samples. -/
def mCountersOnly : Metrics :=
  { requests := [], dbQueries := [], cacheHits := 3, cacheMisses := 7 }

/-- One request sample alongside three hits and seven misses. -/
def mOneRequest : Metrics :=
  { requests := [⟨"GET", "/", 5, 0, 200⟩], dbQueries := [], cacheHits := 3, cacheMisses := 7 }

/-- Three request samples with durations 3, 1, 2 ms. -/
def mThree : Metrics :=
  { requests := [⟨"GET", "/", 3, 0, 200⟩, ⟨"GET", "/", 1, 5, 200⟩, ⟨"GET", "/", 2, 9, 404⟩]
    dbQueries := [], cacheHits := 0, cacheMisses := 0 }

/-- A catalog holding products 1, 2, 4 and 5 but not 3. -/
def dbGap : DB :=
  { products := [⟨1, 10⟩, ⟨2, 20⟩, ⟨4, 40⟩, ⟨5, 50⟩]
    orders := [], orderItems := [], nextOrderId := 1 }

/-- Five items whose third references the nonexistent product 3. -/
def itemsGap : List Item := [⟨1, 1⟩, ⟨2, 1⟩, ⟨3, 1⟩, ⟨4, 1⟩, ⟨5, 1⟩]

/-- A catalog holding only product 1. -/
def dbOne : DB := { products := [⟨1, 10⟩], orders := [], orderItems := [], nextOrderId := 1 }

/-- A catalog holding products 1 and 2. -/
def dbPair : DB :=
  { products := [⟨1, 10⟩, ⟨2, 20⟩], orders := [], orderItems := [], nextOrderId := 1 }

/-- Two items whose second references the nonexistent product 9. -/
def itemsBadSecond : List Item := [⟨1, 1⟩, ⟨9, 1⟩]

/-- A stored recommendations body from before some write. -/
def staleBody : RecResponse := ⟨[], 1, some false⟩

/-- A fresh query row present only after the write. -/
def freshRow : RecRow := ⟨2, "fresh", 5, 1, 0, 3⟩

/-- A cache holding `staleBody` for user 7, expiring at t = 1000. -/
def cacheStale : Cache := [⟨recKey 7, staleBody, 1000⟩]

end WebPerf

namespace WebPerf

/-! Agreement of the executable floor, ceil and round with Mathlib's -/

theorem ratFloor_eq (q : ℚ) : ratFloor q = ⌊q⌋ := Rat.floor_def.symm

theorem jsCeil_eq (q : ℚ) : jsCeil q = ⌈q⌉ := by
  rw [jsCeil, ratFloor_eq, Int.floor_neg, neg_neg]

theorem jsRound_eq (q : ℚ) : jsRound q = round q := by
  rw [jsRound, ratFloor_eq, round_eq]

theorem round2_zero : round2 0 = 0 := by
  rw [round2, jsRound_eq]
  norm_num

/-- Two-decimal rounding never changes a value that is already a whole
number of milliseconds. -/
theorem round2_natCast (n : ℕ) : round2 (n : ℚ) = (n : ℚ) := by
  rw [round2, jsRound_eq]
  have h : ((n : ℚ) * 100) = ((n * 100 : ℕ) : ℚ) := by push_cast; ring
  rw [h, round_natCast]
  push_cast
  ring

/-! C10 -/

/-- C10: with an empty request series `calculateStats` returns the
all-zero snapshot whatever the recorded query samples and cache
counters are — recorded query and cache data are not reflected in any
stats field until a request sample exists. -/
theorem calculateStats_empty_all_zero (q : List QuerySample) (hits misses : ℕ) :
    calculateStats { requests := [], dbQueries := q, cacheHits := hits, cacheMisses := misses } =
      { requestCount := 0, errorCount := 0, avgLatency := 0, p95Latency := 0
        throughput := 0, avgDbTime := 0, cacheHitRatioPercent := 0 } := rfl

/-! C1 -/

/-- C1 counterexample: two samples recorded exactly one second apart.
The claimed throughput is (2 − 1) / 1 = 1; `calculateStats` returns
`length / timeSpan` = 2 / 1 = 2. -/
theorem throughput_counterexample :
    (calculateStats mTwo).throughput = 2 ∧
    ((mTwo.requests.length : ℚ) - 1) / elapsedSec mTwo = 1 := by
  constructor
  · norm_num [mTwo, calculateStats, percentile, elapsedSec, round2, jsRound, jsCeil, ratFloor,
      List.insertionSort, List.orderedInsert, List.getLastI, List.headI]
  · norm_num [mTwo, elapsedSec, List.getLastI, List.headI]

/-- C1 (amended): the throughput field equals the sample count — not the
sample count minus one — divided by the elapsed seconds between the
first and last sample (rounded to 2 decimals), and is 0 whenever fewer
than 2 samples exist or the elapsed time is not positive; in particular
with exactly one sample it is 0, and no division is ever performed on a
zero elapsed time. -/
theorem throughput_formula (m : Metrics) :
    (calculateStats m).throughput =
      if 2 ≤ m.requests.length ∧ 0 < elapsedSec m then
        round2 ((m.requests.length : ℚ) / elapsedSec m)
      else 0 := by
  by_cases h0 : m.requests.length = 0
  · simp [calculateStats, h0]
  · by_cases h2 : 2 ≤ m.requests.length
    · by_cases h3 : 0 < elapsedSec m
      · simp [calculateStats, h0, h2, h3]
      · simp [calculateStats, h0, h2, h3, round2_zero]
    · simp [calculateStats, h0, h2, round2_zero]

/-! C9 -/

/-- C9 counterexample: after exactly 3 recorded hits and 7 recorded
misses but no request samples, the returned ratio is 0, not the claimed
30.00 — the empty-series early return shadows the counters. -/
theorem hitRatioPercent_counterexample :
    Stats.cacheHitRatioPercent (calculateStats mCountersOnly) = 0 ∧
    mCountersOnly.cacheHits = 3 ∧ mCountersOnly.cacheMisses = 7 := by
  exact ⟨rfl, rfl, rfl⟩

/-- C9 (amended): whenever at least one request sample exists, the cache
hit ratio field equals hits / (hits + misses) × 100 rounded to 2
decimals, and 0 when no cache operation occurred; with an empty request
series it is 0 regardless of the counters. -/
theorem hitRatioPercent_formula (m : Metrics) (h : m.requests ≠ []) :
    Stats.cacheHitRatioPercent (calculateStats m) =
      if 0 < m.cacheHits + m.cacheMisses then
        round2 ((m.cacheHits : ℚ) / ((m.cacheHits + m.cacheMisses : ℕ) : ℚ) * 100)
      else 0 := by
  have h0 : ¬ m.requests.length = 0 := by simpa using fun hl => h (List.length_eq_zero.mp hl)
  by_cases hc : 0 < m.cacheHits + m.cacheMisses
  · simp [calculateStats, h0, hc]
  · simp [calculateStats, h0, hc, round2_zero]

/-- C9 witness: with one request sample recorded, 3 hits and 7 misses
give a ratio of exactly 30. -/
theorem hitRatioPercent_witness :
    Stats.cacheHitRatioPercent (calculateStats mOneRequest) = 30 := by
  rw [hitRatioPercent_formula mOneRequest (by simp [mOneRequest])]
  norm_num [mOneRequest, round2, jsRound, ratFloor]

/-! C3 -/

/-- Clamping an integer index into `[0, n-1]` commutes with `Int.toNat`
when the upper bound is non-negative. -/
theorem toNat_min_sub_one (a : ℤ) (n : ℕ) (hn : 1 ≤ n) :
    (min a ((n : ℤ) - 1)).toNat = min a.toNat (n - 1) := by
  omega

/-- C3: for a non-empty request series of N samples, the p95 field is
exactly the (⌈0.95·N⌉ − 1)-th smallest duration, 0-indexed with the
index clamped into [0, N−1] (`Int.toNat` performs the lower clamp).
`List.sorted_insertionSort` and `List.perm_insertionSort` justify
reading position k of `kthSmallest` as the k-th smallest element; the
2-decimal rounding is the identity on whole-millisecond durations. -/
theorem p95_nearest_rank (m : Metrics) (h : m.requests ≠ []) :
    (calculateStats m).p95Latency =
      (kthSmallest (m.requests.map (·.duration))
        (min (⌈(95 : ℚ)/100 * (m.requests.length : ℚ)⌉ - 1).toNat
          (m.requests.length - 1)) : ℚ) := by
  have h0 : ¬ m.requests.length = 0 := by
    simpa using fun hl => h (List.length_eq_zero.mp hl)
  have hlen : (List.insertionSort (· ≤ ·) (m.requests.map (·.duration))).length =
      m.requests.length := by
    rw [List.length_insertionSort, List.length_map]
  rw [calculateStats, if_neg h0]
  show round2 ((percentile (List.insertionSort (· ≤ ·) (m.requests.map (·.duration)))
      (95/100) : ℕ) : ℚ) = _
  rw [round2_natCast, percentile, if_neg (by rw [hlen]; exact h0)]
  rw [kthSmallest]
  norm_cast
  congr 1
  rw [hlen, jsCeil_eq]
  exact toNat_min_sub_one _ _ (by omega)

/-- C3 witness: three samples with durations 3, 1, 2; the index is
⌈0.95·3⌉ − 1 = 2 and the p95 is the largest duration, 3. -/
theorem p95_nearest_rank_witness :
    (calculateStats mThree).p95Latency =
      (kthSmallest (mThree.requests.map (·.duration))
        (min (⌈(95 : ℚ)/100 * (mThree.requests.length : ℚ)⌉ - 1).toNat
          (mThree.requests.length - 1)) : ℚ) :=
  p95_nearest_rank mThree (by simp [mThree])

/-! C2 -/

/-- The baseline price/total loop fails exactly when some item's product
does not exist. -/
theorem naiveTotal_eq_none_iff (db : DB) :
    ∀ (items : List Item) (acc : ℚ),
      naiveTotal db items acc = none ↔
        ∃ it ∈ items, findProduct db it.productId = none := by
  intro items
  induction items with
  | nil => intro acc; simp [naiveTotal]
  | cons it rest ih =>
    intro acc
    cases hfp : findProduct db it.productId with
    | none => simp [naiveTotal, hfp]
    | some p => simp [naiveTotal, hfp, ih]

/-- C2 counterexample: the naive checkout of five items whose third
references the nonexistent product 3 answers 400 and leaves the database
exactly as it was — in particular no order item is persisted, against
the claim that the first two items remain. -/
theorem naiveCheckout_counterexample :
    (naiveCheckout dbGap 7 itemsGap).1.status = 400 ∧
    (naiveCheckout dbGap 7 itemsGap).2 = dbGap ∧
    DB.orderItems (naiveCheckout dbGap 7 itemsGap).2 = [] := ⟨rfl, rfl, rfl⟩

/-- C2 (amended): in naive mode a checkout containing any item that
references a nonexistent product is rejected with a 400 client error
during the upfront per-item price loop, before the order header or any
item is written: the database is left unchanged.  The naive path's
non-atomicity is not exercised by a missing product known at request
time, because all products are read once for the total before any
insert. -/
theorem naiveCheckout_missing_product (db : DB) (userId : ℕ) (items : List Item)
    (hu : userId ≠ 0) (hne : items ≠ [])
    (hmiss : ∃ it ∈ items, findProduct db it.productId = none) :
    (naiveCheckout db userId items).1.status = 400 ∧
    (naiveCheckout db userId items).2 = db := by
  have hvalid : ¬(userId = 0 ∨ items.isEmpty = true) := by
    simp [hu, hne]
  have htot : naiveTotal db items 0 = none := (naiveTotal_eq_none_iff db items 0).2 hmiss
  rw [naiveCheckout, if_neg hvalid, htot]
  exact ⟨rfl, rfl⟩

/-- C2 witness: the amended statement at the concrete five-item request. -/
theorem naiveCheckout_missing_product_witness :
    (naiveCheckout dbGap 9 itemsGap).1.status = 400 ∧
    (naiveCheckout dbGap 9 itemsGap).2 = dbGap :=
  naiveCheckout_missing_product dbGap 9 itemsGap (by simp) (by simp [itemsGap])
    ⟨⟨3, 1⟩, by simp [itemsGap], rfl⟩

/-! C4 -/

/-- C4: the optimized checkout is atomic — whenever the route answers
500 (existence-check failure, order-insert failure, or item-insert
failure, all inside BEGIN…COMMIT), the database and the cache are left
exactly as they were: the caller observes neither the order header nor
any line item persisted. -/
theorem optimizedCheckout_atomic (db : DB) (c : Cache) (userId : ℕ) (items : List Item)
    (f1 f2 avail : Bool)
    (h : (optimizedCheckout db c userId items f1 f2 avail).response.status = 500) :
    (optimizedCheckout db c userId items f1 f2 avail).db = db ∧
    (optimizedCheckout db c userId items f1 f2 avail).cache = c := by
  by_cases hv : userId = 0 ∨ items = []
  · simp [optimizedCheckout, hv] at h
  · by_cases hm : items.any (fun it => (findProduct db it.productId).isNone) = true
    · constructor <;> simp [optimizedCheckout, hv, hm]
    · by_cases h1 : f1 = true
      · constructor <;> simp [optimizedCheckout, hv, hm, h1]
      · by_cases h2 : f2 = true
        · constructor <;> simp [optimizedCheckout, hv, hm, h1, h2]
        · simp [optimizedCheckout, hv, hm, h1, h2] at h

/-- C4 witness: a concrete run whose order insert fails rolls everything
back. -/
theorem optimizedCheckout_atomic_witness :
    (optimizedCheckout dbOne [] 7 [⟨1, 1⟩] true false true).db = dbOne ∧
    (optimizedCheckout dbOne [] 7 [⟨1, 1⟩] true false true).cache = [] :=
  optimizedCheckout_atomic dbOne [] 7 [⟨1, 1⟩] true false true rfl

/-! C5 -/

/-- C5 counterexample: an optimized checkout whose second item references
the nonexistent product 9 is answered with HTTP 500 — the route's
catch-all maps the validation throw to `Internal server error`, not to a
4xx client error.  (No write is attempted, and the state is unchanged:
that half of the claim holds.) -/
theorem optimizedCheckout_notFound_counterexample :
    (optimizedCheckout dbPair [] 7 itemsBadSecond false false true).response.status = 500 ∧
    ¬((optimizedCheckout dbPair [] 7 itemsBadSecond false false true).response.status < 500) ∧
    (optimizedCheckout dbPair [] 7 itemsBadSecond false false true).writes = [] := by
  exact ⟨rfl, by decide, rfl⟩

/-- C5 (amended): in the optimized branch a checkout referencing a
nonexistent product is detected by the batched existence validation
before any write is attempted (the write trace is empty and both the
database and cache are unchanged), but it is reported to the caller as a
500 server error, not as a client error. -/
theorem optimizedCheckout_notFound (db : DB) (c : Cache) (userId : ℕ) (items : List Item)
    (f1 f2 avail : Bool) (hu : userId ≠ 0) (hne : items ≠ [])
    (hmiss : ∃ it ∈ items, findProduct db it.productId = none) :
    (optimizedCheckout db c userId items f1 f2 avail).response.status = 500 ∧
    (optimizedCheckout db c userId items f1 f2 avail).writes = [] ∧
    (optimizedCheckout db c userId items f1 f2 avail).db = db ∧
    (optimizedCheckout db c userId items f1 f2 avail).cache = c := by
  have hv : ¬(userId = 0 ∨ items = []) := by simp [hu, hne]
  have hany : items.any (fun it => (findProduct db it.productId).isNone) = true := by
    rcases hmiss with ⟨it, hmem, hfp⟩
    exact List.any_eq_true.2 ⟨it, hmem, by simp [hfp]⟩
  simp [optimizedCheckout, hv, hany]

/-- C5 witness: the amended statement at the concrete two-item request. -/
theorem optimizedCheckout_notFound_witness :
    (optimizedCheckout dbPair cacheStale 8 itemsBadSecond false false false).response.status
      = 500 ∧
    (optimizedCheckout dbPair cacheStale 8 itemsBadSecond false false false).writes = [] ∧
    (optimizedCheckout dbPair cacheStale 8 itemsBadSecond false false false).db = dbPair ∧
    (optimizedCheckout dbPair cacheStale 8 itemsBadSecond false false false).cache
      = cacheStale :=
  optimizedCheckout_notFound dbPair cacheStale 8 itemsBadSecond false false false
    (by simp) (by simp [itemsBadSecond]) ⟨⟨9, 1⟩, by simp [itemsBadSecond], rfl⟩

/-! C6 -/

/-- C6 counterexample: with the blanket optimized mode and the explicit
environment override set to '0' — the disabling value the run scripts
use — the capability resolves to enabled, not to the override's value. -/
theorem capability_override_counterexample :
    capabilityEnabled (some "0") (some "optimized") = true := rfl

/-- C6 (amended): the capability resolution is a disjunction, not an
override-wins rule: setting the override to '1' enables the capability
under either blanket mode, and under the blanket optimized mode the
capability is enabled regardless of the override — an explicit override
cannot disable a capability that the optimized mode enables.  Only when
the blanket mode is not optimized does the resolved value equal whether
the override is '1'. -/
theorem capability_resolution (ov app : Option String) :
    (ov = some "1" → capabilityEnabled ov app = true) ∧
    (app = some "optimized" → capabilityEnabled ov app = true) ∧
    (ov ≠ some "1" → app ≠ some "optimized" → capabilityEnabled ov app = false) := by
  refine ⟨fun h1 => ?_, fun h2 => ?_, fun h1 h2 => ?_⟩
  · simp [capabilityEnabled, h1]
  · simp [capabilityEnabled, h2]
  · simp [capabilityEnabled, h1, h2]

/-- C6 witness: with the baseline blanket mode and the override '0' the
capability is disabled. -/
theorem capability_resolution_witness :
    capabilityEnabled (some "0") (some "baseline") = false :=
  (capability_resolution (some "0") (some "baseline")).2.2 (by decide) (by decide)

/-! C7 -/

/-- C7 counterexample: for the same (empty) query result and the same
timestamp, the cache-enabled branch's miss response differs from the
baseline branch's response — the former carries a `cached: false` field
the latter does not have. -/
theorem recommendations_body_counterexample :
    (recommendationsOptimized [] true true 7 [] 0 0 0).response ≠
      (recommendationsBaseline [] [] 0 0 0).response := by
  decide

/-- C7 (amended): the recommendations array and the timestamp are
computed identically by the cache-enabled and the cache-disabled paths,
and a hit returns the stored body unchanged; the bodies are not
byte-identical across modes, differing exactly in the `cached: false`
field that only the cache-enabled path emits. -/
theorem recommendations_cache_transparency (c : Cache) (uid : ℕ) (rows : List RecRow)
    (now hits misses : ℕ) :
    (cacheGet c (recKey uid) now = none →
      (recommendationsOptimized c true true uid rows now hits misses).response.recommendations =
        (recommendationsBaseline c rows now hits misses).response.recommendations ∧
      (recommendationsOptimized c true true uid rows now hits misses).response.generatedAt =
        (recommendationsBaseline c rows now hits misses).response.generatedAt ∧
      (recommendationsOptimized c true true uid rows now hits misses).response.cached
        = some false ∧
      (recommendationsBaseline c rows now hits misses).response.cached = none) ∧
    (∀ v, cacheGet c (recKey uid) now = some v →
      (recommendationsOptimized c true true uid rows now hits misses).response = v) := by
  constructor
  · intro hmiss
    simp [recommendationsOptimized, recommendationsBaseline, hmiss,
      optimizedMissResponse, baselineResponse]
  · intro v hhit
    simp [recommendationsOptimized, hhit]

/-- C7 witness: the amended statement at concrete inputs — a miss on the
empty cache produces the baseline recommendations with the extra
`cached: false` field, and a hit on a cache holding `staleBody` returns
exactly `staleBody`. -/
theorem recommendations_cache_transparency_witness :
    ((recommendationsOptimized [] true true 7 [] 0 0 0).response.recommendations =
      (recommendationsBaseline [] [] 0 0 0).response.recommendations ∧
     (recommendationsOptimized [] true true 7 [] 0 0 0).response.cached = some false) ∧
    (recommendationsOptimized cacheStale true true 7 [] 0 0 0).response = staleBody :=
  ⟨⟨((recommendations_cache_transparency [] 7 [] 0 0 0).1 rfl).1,
    ((recommendations_cache_transparency [] 7 [] 0 0 0).1 rfl).2.2.1⟩,
   (recommendations_cache_transparency cacheStale 7 [] 0 0 0).2 staleBody rfl⟩

/-! C8 -/

/-- Deleting a key removes it from the cache: a subsequent `get` of that
key misses. -/
theorem cacheGet_cacheDel (c : Cache) (k : String) (now : ℕ) :
    cacheGet (cacheDel c k) k now = none := by
  have h : (cacheDel c k).find? (fun e => e.key == k) = none := by
    rw [List.find?_eq_none]
    intro e he
    simpa using (List.mem_filter.1 he).2
  rw [cacheGet, h]

/-- C8 counterexample: a successful optimized checkout for user 7 run
while the cache backend is unreachable skips the invalidation; the next
cache-enabled read for user 7 is a hit that returns the stale stored
body, which differs from the freshly computed one. -/
theorem checkout_invalidation_counterexample :
    (optimizedCheckout dbOne cacheStale 7 [⟨1, 1⟩] false false false).response.status = 200 ∧
    (optimizedCheckout dbOne cacheStale 7 [⟨1, 1⟩] false false false).cache = cacheStale ∧
    (recommendationsOptimized cacheStale true true 7 [freshRow] 2 0 0).response = staleBody ∧
    staleBody ≠ optimizedMissResponse [freshRow] 2 ∧
    (recommendationsOptimized cacheStale true true 7 [freshRow] 2 0 0).hits = 1 := by
  refine ⟨rfl, rfl, rfl, ?_, rfl⟩
  simp [staleBody, optimizedMissResponse, RecResponse.mk.injEq]

/-- C8 (amended): after every successful optimized checkout performed
while the cache backend is reachable, the recommendations entry keyed by
that user is deleted, so the next cache-enabled read for that user
misses (the miss counter is incremented) and recomputes the body; when
the backend is unreachable at checkout time the invalidation is skipped
and a pre-existing entry can later be served stale. -/
theorem checkout_invalidates_cache (db : DB) (c : Cache) (uid : ℕ) (items : List Item)
    (f1 f2 : Bool) (rows : List RecRow) (nowR hits misses : ℕ)
    (hsucc : (optimizedCheckout db c uid items f1 f2 true).response.status = 200) :
    cacheGet (optimizedCheckout db c uid items f1 f2 true).cache (recKey uid) nowR = none ∧
    (recommendationsOptimized (optimizedCheckout db c uid items f1 f2 true).cache
      true true uid rows nowR hits misses).misses = misses + 1 ∧
    (recommendationsOptimized (optimizedCheckout db c uid items f1 f2 true).cache
      true true uid rows nowR hits misses).response = optimizedMissResponse rows nowR := by
  have hc : (optimizedCheckout db c uid items f1 f2 true).cache = cacheDel c (recKey uid) := by
    by_cases hv : uid = 0 ∨ items = []
    · simp [optimizedCheckout, hv] at hsucc
    · by_cases hm : items.any (fun it => (findProduct db it.productId).isNone) = true
      · simp [optimizedCheckout, hv, hm] at hsucc
      · by_cases h1 : f1 = true
        · simp [optimizedCheckout, hv, hm, h1] at hsucc
        · by_cases h2 : f2 = true
          · simp [optimizedCheckout, hv, hm, h1, h2] at hsucc
          · simp [optimizedCheckout, hv, hm, h1, h2]
  rw [hc]
  have hget := cacheGet_cacheDel c (recKey uid) nowR
  exact ⟨hget, by simp [recommendationsOptimized, hget],
    by simp [recommendationsOptimized, hget]⟩

/-- C8 witness: the amended statement at a concrete successful checkout
over the stale cache. -/
theorem checkout_invalidates_cache_witness :
    cacheGet (optimizedCheckout dbOne cacheStale 7 [⟨1, 1⟩] false false true).cache
      (recKey 7) 2 = none ∧
    (recommendationsOptimized (optimizedCheckout dbOne cacheStale 7 [⟨1, 1⟩] false false
      true).cache true true 7 [freshRow] 2 0 0).misses = 0 + 1 ∧
    (recommendationsOptimized (optimizedCheckout dbOne cacheStale 7 [⟨1, 1⟩] false false
      true).cache true true 7 [freshRow] 2 0 0).response = optimizedMissResponse [freshRow] 2 :=
  checkout_invalidates_cache dbOne cacheStale 7 [⟨1, 1⟩] false false [freshRow] 2 0 0 rfl

end WebPerf
